import Mathlib

/-!
Verification development for the crawler-cv job aggregation and matching
pipeline.  The Python source is shallowly embedded: dataclasses become
structures, pure functions become Lean functions over `List`/`Finset`/`ℚ`,
Python float arithmetic is modelled over `ℚ` (all constants and divisions in
the scorer are exact decimal/rational values), Python `str.lower` is modelled
as a character-wise lowering, and fallible parsing returns `Option`.
-/

/-- Python `str.lower`, modelled as character-wise lowering of the string's
characters (the source only ever lowers ASCII skill/keyword text). -/
def lowerStr (s : String) : String := String.mk (s.data.map Char.toLower)

/-- Helper for substring search: does the second list start with the first? -/
def leadsWith : List Char → List Char → Bool
  | [], _ => true
  | _ :: _, [] => false
  | a :: as, b :: bs => a == b && leadsWith as bs

/-- Helper for substring search: does `needle` occur contiguously in the
second list?  Models Python's `needle in haystack` on strings. -/
def occursIn (needle : List Char) : List Char → Bool
  | [] => leadsWith needle []
  | c :: cs => leadsWith needle (c :: cs) || occursIn needle cs

/-- Python `sub in s` (contiguous substring containment). -/
def strHasSub (s sub : String) : Bool := occursIn sub.data s.data

/-- Dataclass `ResumeProfile` of `src/types.py`. -/
structure ResumeProfile where
  area : String
  senioridade : String
  skills : List String
  soft_skills : List String
  anos_experiencia : Int
  keywords : List String
  empresas_anteriores : List String
deriving Repr, DecidableEq

/-- Dataclass `JobPosting` of `src/types.py`.  Salary bounds are Python floats,
modelled as rationals. -/
structure JobPosting where
  id : String
  empresa : String
  titulo : String
  descricao : String
  requisitos : String
  skills_detectadas : List String
  senioridade : Option String
  localizacao : String
  link : String
  data_coleta : String
  ats : Option String := none
  url_empresa : String := ""
  salario_min : Option ℚ := none
  salario_max : Option ℚ := none
deriving Repr, DecidableEq

/-- Dataclass `Match` of `src/types.py`. -/
structure Match where
  vaga : JobPosting
  score : ℚ
  skill_overlap : List String
  motivo : String
deriving Repr, DecidableEq

/-- Constant `SKILLS_WEIGHT = 0.5` of `src/config.py`. -/
def SKILLS_WEIGHT : ℚ := 1/2

/-- Constant `SENIORIDADE_WEIGHT = 0.3` of `src/config.py`. -/
def SENIORIDADE_WEIGHT : ℚ := 3/10

/-- Constant `SEMANTIC_WEIGHT = 0.2` of `src/config.py`. -/
def SEMANTIC_WEIGHT : ℚ := 1/5

/-- Function `calculate_skill_overlap` of `src/matching/scorer.py`: neutral `0.5` when the
job's detected-skill list is empty, otherwise the size of the intersection of
the case-folded skill sets divided by the size of the job's case-folded
skill set, clamped to `1.0`. -/
def calculate_skill_overlap (resume_skills job_skills : List String) : ℚ :=
  if job_skills = [] then 1/2
  else
    let resume_lower := (resume_skills.map lowerStr).toFinset
    let job_lower := (job_skills.map lowerStr).toFinset
    let overlap_count := (resume_lower ∩ job_lower).card
    min 1 ((overlap_count : ℚ) / (job_lower.card : ℚ))

/-- Dict lookup `seniority_levels` of `src/matching/scorer.py`:
`{"Junior": 0, "Pleno": 1, "Senior": 2, "Lead": 3}`. -/
def seniority_levels (s : String) : Option ℕ :=
  if s = "Junior" then some 0
  else if s = "Pleno" then some 1
  else if s = "Senior" then some 2
  else if s = "Lead" then some 3
  else none

/-- Function `_senioridade_score` of `src/matching/scorer.py`.  Python's
`if not job_senioridade` is falsy for both `None` and the empty string, so
both yield the neutral `0.5`; unrecognized levels fall back to dict default
`1` (Pleno) on either side. -/
def senioridade_score (resume_senioridade : String)
    (job_senioridade : Option String) : ℚ :=
  match job_senioridade with
  | none => 1/2
  | some j =>
    if j = "" then 1/2
    else
      let resume_level := (seniority_levels resume_senioridade).getD 1
      let job_level := (seniority_levels j).getD 1
      if resume_level = job_level then 1
      else if ((resume_level : ℤ) - (job_level : ℤ)).natAbs = 1 then 4/5
      else if ((resume_level : ℤ) - (job_level : ℤ)).natAbs = 2 then 1/2
      else 1/5

/-- Function `_calculate_semantic_similarity` of `src/matching/scorer.py`: neutral `0.5`
when the keyword list or the description is empty, otherwise the fraction of
keywords occurring (case-insensitively) as substrings of the description,
clamped to `1.0`. -/
def calculate_semantic_similarity (keywords : List String)
    (description : String) : ℚ :=
  if keywords = [] ∨ description = "" then 1/2
  else
    let description_lower := lowerStr description
    let kwMatches :=
      (keywords.filter (fun kw => strHasSub description_lower (lowerStr kw))).length
    min 1 ((kwMatches : ℚ) / (keywords.length : ℚ))

/-- Function `score_job` of `src/matching/scorer.py`: weighted sum of the three
components plus construction of the overlapping-skill list and the rationale
string. -/
def score_job (profile : ResumeProfile) (job : JobPosting) : Match :=
  let skill_overlap := calculate_skill_overlap profile.skills job.skills_detectadas
  let overlapping_skills := profile.skills.filter
    (fun s => (job.skills_detectadas.map lowerStr).contains (lowerStr s))
  let sen_score := senioridade_score profile.senioridade job.senioridade
  let semantic_score := calculate_semantic_similarity profile.keywords job.descricao
  let final_score :=
    SKILLS_WEIGHT * skill_overlap + SENIORIDADE_WEIGHT * sen_score +
      SEMANTIC_WEIGHT * semantic_score
  let reasons :=
    (if overlapping_skills ≠ [] then
      ["Match de " ++ toString overlapping_skills.length ++ " skills: " ++
        String.intercalate ", " (overlapping_skills.take 3)]
     else []) ++
    (if sen_score > 7/10 then
      ["Senioridade compativel (" ++ profile.senioridade ++ " -> " ++
        job.senioridade.getD "None" ++ ")"]
     else []) ++
    (if semantic_score > 1/2 then ["Descricao alinhada com seu perfil"] else [])
  let motivo :=
    if reasons ≠ [] then String.intercalate "; " reasons
    else "Perfil parcialmente alinhado"
  { vaga := job, score := final_score, skill_overlap := overlapping_skills,
    motivo := motivo }

/-- The loop of `src/crawler/jobs_manager.py` `merge_jobs`: walk the new
jobs, appending each whose link is not in the accumulated link set and
adding its link to the set. -/
def merge_loop : List JobPosting → Finset String → List JobPosting → List JobPosting
  | [], _, merged => merged
  | job :: rest, links, merged =>
    if job.link ∈ links then merge_loop rest links merged
    else merge_loop rest (insert job.link links) (merged ++ [job])

/-- Function `merge_jobs` of `src/crawler/jobs_manager.py`: the link set is built once
from `existing`, then the loop above runs over `new` starting from a copy of
`existing`. -/
def merge_jobs (existing new : List JobPosting) : List JobPosting :=
  merge_loop new (existing.map JobPosting.link).toFinset existing

/-- JSON values, as produced by Python's `json.dump` and consumed by
`json.load` (numbers modelled as rationals, which the decimal literals the
store writes always are). -/
inductive JValue where
  | jnull
  | jbool (b : Bool)
  | jnum (q : ℚ)
  | jstr (s : String)
  | jarr (items : List JValue)
  | jobj (fields : List (String × JValue))

/-- Python `None`-or-string serialized by `json.dump`. -/
def optStr : Option String → JValue
  | none => .jnull
  | some s => .jstr s

/-- Python `None`-or-number serialized by `json.dump`. -/
def optNum : Option ℚ → JValue
  | none => .jnull
  | some q => .jnum q

/-- The entries of the per-job dict literal built inside `save_jobs`. -/
def job_fields (job : JobPosting) : List (String × JValue) :=
  [
    ("id", .jstr job.id),
    ("empresa", .jstr job.empresa),
    ("titulo", .jstr job.titulo),
    ("descricao", .jstr job.descricao),
    ("requisitos", .jstr job.requisitos),
    ("skills_detectadas", .jarr (job.skills_detectadas.map JValue.jstr)),
    ("senioridade", optStr job.senioridade),
    ("localizacao", .jstr job.localizacao),
    ("link", .jstr job.link),
    ("data_coleta", .jstr job.data_coleta),
    ("ats", optStr job.ats),
    ("url_empresa", .jstr job.url_empresa),
    ("salario_min", optNum job.salario_min),
    ("salario_max", optNum job.salario_max)]

/-- The per-job dict literal built inside `save_jobs`. -/
def job_to_dict (job : JobPosting) : JValue :=
  .jobj (job_fields job)

/-- Function `save_jobs` of `src/crawler/jobs_manager.py`, modelled at the JSON level:
the file written is exactly `json.dump` of this array of dicts (the
filesystem round-trips the dumped value unchanged). -/
def save_jobs (jobs : List JobPosting) : JValue :=
  .jarr (jobs.map job_to_dict)

/-- Python dict lookup on the (ordered) field list of a JSON object. -/
def jget : List (String × JValue) → String → Option JValue
  | [], _ => none
  | (k, v) :: rest, key => if key = k then some v else jget rest key

/-- Lookup `job["key"]` where a string is expected; a missing key raises `KeyError`
in Python (modelled as `none`), and a non-string value would build an
ill-typed `JobPosting` (also modelled as `none`; `save_jobs` never writes
one). -/
def getStr (fields : List (String × JValue)) (key : String) : Option String :=
  match jget fields key with
  | some (.jstr s) => some s
  | _ => none

/-- Lookup `job.get("key")` where a string or `null` is expected: missing key or
JSON `null` is Python `None`. -/
def getOptStr (fields : List (String × JValue)) (key : String) :
    Option (Option String) :=
  match jget fields key with
  | none => some none
  | some .jnull => some none
  | some (.jstr s) => some (some s)
  | some _ => none

/-- Lookup `job.get("key", "")` for `url_empresa`. -/
def getStrDefault (fields : List (String × JValue)) (key : String) :
    Option String :=
  match jget fields key with
  | none => some ""
  | some (.jstr s) => some s
  | some _ => none

/-- Lookup `job.get("key")` where a number or `null` is expected. -/
def getOptNum (fields : List (String × JValue)) (key : String) :
    Option (Option ℚ) :=
  match jget fields key with
  | none => some none
  | some .jnull => some none
  | some (.jnum q) => some (some q)
  | some _ => none

/-- One element of a loaded JSON string array. -/
def jvalAsStr : JValue → Option String
  | .jstr s => some s
  | _ => none

/-- Read every element of a loaded JSON array as a string. -/
def parse_str_items : List JValue → Option (List String)
  | [] => some []
  | v :: rest =>
    match jvalAsStr v, parse_str_items rest with
    | some s, some ss => some (s :: ss)
    | _, _ => none

/-- Lookup `job["skills_detectadas"]`: a JSON array of strings. -/
def getStrList (fields : List (String × JValue)) (key : String) :
    Option (List String) :=
  match jget fields key with
  | some (.jarr xs) => parse_str_items xs
  | _ => none

/-- The `JobPosting(...)` construction inside `load_jobs` for one loaded
dict. -/
def parse_job (fields : List (String × JValue)) : Option JobPosting := do
  let id ← getStr fields "id"
  let empresa ← getStr fields "empresa"
  let titulo ← getStr fields "titulo"
  let descricao ← getStr fields "descricao"
  let requisitos ← getStr fields "requisitos"
  let skills_detectadas ← getStrList fields "skills_detectadas"
  let senioridade ← getOptStr fields "senioridade"
  let localizacao ← getStr fields "localizacao"
  let link ← getStr fields "link"
  let data_coleta ← getStr fields "data_coleta"
  let ats ← getOptStr fields "ats"
  let url_empresa ← getStrDefault fields "url_empresa"
  let salario_min ← getOptNum fields "salario_min"
  let salario_max ← getOptNum fields "salario_max"
  pure { id := id, empresa := empresa, titulo := titulo, descricao := descricao,
         requisitos := requisitos, skills_detectadas := skills_detectadas,
         senioridade := senioridade, localizacao := localizacao, link := link,
         data_coleta := data_coleta, ats := ats, url_empresa := url_empresa,
         salario_min := salario_min, salario_max := salario_max }

/-- The list comprehension inside `load_jobs`: parse every element, aborting
on the first malformed one (Python raises). -/
def parse_items : List JValue → Option (List JobPosting)
  | [] => some []
  | v :: rest =>
    match v with
    | .jobj fields =>
      match parse_job fields, parse_items rest with
      | some j, some js => some (j :: js)
      | _, _ => none
    | _ => none

/-- Function `load_jobs` of `src/crawler/jobs_manager.py`, modelled at the JSON level on
an existing file: `json.load` of the file contents followed by the
comprehension building `JobPosting` records. -/
def load_jobs : JValue → Option (List JobPosting)
  | .jarr items => parse_items items
  | _ => none

/-- Python string slicing `s[:n]` (first `n` characters). -/
def strTake (s : String) (n : ℕ) : String := String.mk (s.data.take n)

/-- Outcome of one adapter call as the aggregator's `try` block observes it:
the list the adapter returned, or the message of the exception it raised. -/
inductive FetchOutcome where
  | ok (jobs : List JobPosting)
  | failed (msg : String)

/-- One `try/except` block of `search_all_sources`: `all_jobs.extend(...)` on
success, leave `all_jobs` unchanged on an exception. -/
def extendIfOk (acc : List JobPosting) : FetchOutcome → List JobPosting
  | .ok js => acc ++ js
  | .failed _ => acc

/-- The status string one `try/except` block records in `sources_status`. -/
def sourceStatus : FetchOutcome → String
  | .ok js => "✓ " ++ toString js.length ++ " jobs"
  | .failed msg => "✗ Failed: " ++ strTake msg 50

/-- The outcomes of the four registered adapter calls, in the registration
order of `search_all_sources`. -/
structure SourceOutcomes where
  remoteok : FetchOutcome
  infojobs : FetchOutcome
  rss : FetchOutcome
  getninja : FetchOutcome

/-- Function `search_all_sources` of `src/crawler/multi_source_aggregator.py`: the four
adapter calls run in sequence, each inside its own `try/except`; the network
fetches themselves are modelled by their outcomes.  Returns the accumulated
job list and the `sources_status` summary. -/
def search_all_sources (o : SourceOutcomes) :
    List JobPosting × List (String × String) :=
  let all_jobs : List JobPosting := []
  let all_jobs := extendIfOk all_jobs o.remoteok
  let all_jobs := extendIfOk all_jobs o.infojobs
  let all_jobs := extendIfOk all_jobs o.rss
  let all_jobs := extendIfOk all_jobs o.getninja
  let sources_status :=
    [("RemoteOK", sourceStatus o.remoteok),
     ("InfoJobs", sourceStatus o.infojobs),
     ("RSS Feeds", sourceStatus o.rss),
     ("GetNinja", sourceStatus o.getninja)]
  (all_jobs, sources_status)

/-- The fields of one RemoteOK API item that `_parse_remoteok_job` reads;
`none` models a missing dict key (each read uses `.get` with a default). -/
structure RemoteOkItem where
  title : Option String := none
  description : Option String := none
  tags : Option (List String) := none
  company : Option String := none
  location : Option String := none
  url : Option String := none
  company_url : Option String := none
  salary_min : Option ℚ := none
  salary_max : Option ℚ := none

/-- Vocabulary `known_skills` of `src/crawler/remoteok_api.py`, used by
`_extract_skills`. -/
def remoteok_known_skills : List String :=
  ["Python", "JavaScript", "TypeScript", "Java", "C#", "PHP",
   "Django", "FastAPI", "Flask", "Node.js", "React", "Vue",
   "AWS", "Docker", "Kubernetes", "PostgreSQL", "MongoDB",
   "Git", "REST API", "GraphQL", "SQL", "Linux",
   "Go", "Rust", "Ruby", "Rails", "Laravel",
   "Airflow", "PySpark", "Spark", "Databricks",
   "Pandas", "NumPy", "Scikit-learn", "TensorFlow", "PyTorch",
   "Machine Learning", "Deep Learning", "Data Science",
   "Data Engineer", "Backend", "Frontend", "Full Stack",
   "DevOps", "Cloud", "Microservices", "API", "Database"]

/-- Function `_extract_skills` of `src/crawler/remoteok_api.py`: keep every vocabulary
term occurring case-insensitively in the text.  Python's final
`list(set(found_skills))` only deduplicates (the filtered vocabulary already
has no duplicates, so the set layer fixes no duplicates, only order, which
CPython leaves unspecified; we keep vocabulary order). -/
def remoteok_extract_skills (text : String) : List String :=
  let text_lower := lowerStr text
  (remoteok_known_skills.filter (fun skill => strHasSub text_lower (lowerStr skill))).dedup

/-- Function `_detect_senioridade` of `src/crawler/remoteok_api.py`: precedence order
Senior, then Pleno, then Junior indicators; default "Pleno". -/
def remoteok_detect_senioridade (text : String) : String :=
  let t := lowerStr text
  if ["senior", "staff", "lead", "principal", "sr."].any (fun w => strHasSub t w) then
    "Senior"
  else if ["mid-level", "pleno", "mid", "intermediate", "mid-senior"].any
      (fun w => strHasSub t w) then
    "Pleno"
  else if ["junior", "entry", "trainee", "jr.", "estagiario", "entry-level"].any
      (fun w => strHasSub t w) then
    "Junior"
  else
    "Pleno"

/-- Function `_parse_remoteok_job` of `src/crawler/remoteok_api.py`.  Its `str(uuid.uuid4())`
and `date.today().isoformat()` are ambient values passed as `newId`/`today`.
The body's dict reads all use `.get` with defaults, so the `except` path
returning `None` is unreachable and the model is total. -/
def parse_remoteok_job (newId today : String) (data : RemoteOkItem) : JobPosting :=
  let title := data.title.getD ""
  let description := data.description.getD ""
  let tags := data.tags.getD []
  let full_text := title ++ " " ++ description ++ " " ++ String.intercalate " " tags
  let skills := remoteok_extract_skills full_text
  let senioridade := remoteok_detect_senioridade full_text
  let company0 := data.company.getD "Unknown"
  let company :=
    if company0 = "" ∨ company0 = "Unknown" then
      if strHasSub title " at " then (title.splitOn " at ").getLastD "Unknown"
      else "Unknown"
    else company0
  { id := newId, empresa := company, titulo := title,
    descricao := if description ≠ "" then strTake description 500 else "",
    requisitos := if description ≠ "" then description else "",
    skills_detectadas := skills, senioridade := some senioridade,
    localizacao := data.location.getD "Remote", link := data.url.getD "",
    data_coleta := today, url_empresa := data.company_url.getD "",
    salario_min := data.salary_min, salario_max := data.salary_max }

/-- One candidate container of `extract_job_postings`, modelled by what the
CSS selectors yield on it: the stripped text of the title element when the
title selector matched, and of the description element when the description
selector matched. -/
structure ScrapedContainer where
  title : Option String
  desc : Option String

/-- Vocabulary `known_skills` of `src/crawler/scraper.py`, used by
`_extract_skills_from_text` (shorter than the RemoteOK one). -/
def scraper_known_skills : List String :=
  ["Python", "JavaScript", "TypeScript", "Java", "C#", "PHP",
   "Django", "FastAPI", "Flask", "Node.js", "React", "Vue",
   "AWS", "Docker", "Kubernetes", "PostgreSQL", "MongoDB",
   "Git", "REST API", "GraphQL", "SQL", "Linux",
   "Go", "Rust", "Ruby", "Rails", "Laravel"]

/-- Function `_extract_skills_from_text` of `src/crawler/scraper.py`. -/
def scraper_extract_skills_from_text (text : String) : List String :=
  scraper_known_skills.filter (fun skill => strHasSub (lowerStr text) (lowerStr skill))

/-- Function `_detect_senioridade` of `src/crawler/scraper.py`: like the RemoteOK one but
with shorter indicator lists and returning `None` when nothing matches. -/
def scraper_detect_senioridade (text : String) : Option String :=
  let t := lowerStr text
  if ["senior", "staff", "lead", "principal"].any (fun w => strHasSub t w) then
    some "Senior"
  else if ["mid-level", "pleno", "mid"].any (fun w => strHasSub t w) then
    some "Pleno"
  else if ["junior", "entry", "trainee"].any (fun w => strHasSub t w) then
    some "Junior"
  else
    none

/-- Function `extract_job_postings` of `src/crawler/scraper.py`, modelled from the point
where BeautifulSoup has selected the containers of the first selector that
matched: for each container whose title element exists, build a `JobPosting`
(note: `descricao` is the element text unbounded — no `[:500]` slice here).
`mkId i` models `str(uuid.uuid4())` for the `i`-th job, `today` models
`_get_today_iso()`. -/
def extract_job_postings (mkId : ℕ → String) (today : String)
    (containers : List ScrapedContainer)
    (empresa url_empresa source_url : String) : List JobPosting :=
  (containers.enum).filterMap (fun ic =>
    match ic.2.title with
    | none => none
    | some title =>
      let description := ic.2.desc.getD ""
      some { id := mkId ic.1, empresa := empresa, titulo := title,
             descricao := description, requisitos := description,
             skills_detectadas := scraper_extract_skills_from_text description,
             senioridade := scraper_detect_senioridade description,
             localizacao := "Remoto - Brasil", link := source_url,
             data_coleta := today, url_empresa := url_empresa })

/-- The JSON payload fields `analyze_resume_with_groq` reads out of the AI
response (each via `.get` with a default); `none` models a missing key. -/
structure GroqProfilePayload where
  area : Option String := none
  senioridade : Option String := none
  skills : Option (List String) := none
  soft_skills : Option (List String) := none
  anos_experiencia : Option Int := none
  keywords : Option (List String) := none
  empresas_anteriores : Option (List String) := none

/-- The `ResumeProfile(...)` construction at the end of
`src/resume/analyzer.py` `analyze_resume_with_groq`: the profile-construction
boundary applied to the extracted payload. -/
def build_profile_from_payload (data : GroqProfilePayload) : ResumeProfile :=
  { area := data.area.getD "Backend",
    senioridade := data.senioridade.getD "Pleno",
    skills := data.skills.getD [],
    soft_skills := data.soft_skills.getD [],
    anos_experiencia := data.anos_experiencia.getD 0,
    keywords := data.keywords.getD [],
    empresas_anteriores := data.empresas_anteriores.getD [] }

/-- Specification-side seniority level map, written from the spec's words
"levels mapped {Junior→0, Pleno→1, Senior→2, Lead→3}" (the catch-all branch
is unreachable under the recognized-levels hypothesis). -/
def spec_seniority_level : String → ℕ
  | "Junior" => 0
  | "Pleno" => 1
  | "Senior" => 2
  | _ => 3

/-- Specification-side distance lookup, written from the spec's words
"d=0 → 1.0, d=1 → 0.8, d=2 → 0.5, d≥3 → 0.2". -/
def spec_seniority_lookup (d : ℕ) : ℚ :=
  if d = 0 then 1 else if d = 1 then 4/5 else if d = 2 then 1/2 else 1/5

/-- Specification-side skill component, written from the spec's words: R and
J the case-folded skill sets, `0.5` if J is empty, else `|R ∩ J| / |J|`
clamped to `1.0`. -/
def spec_skill_component (resume_skills job_skills : List String) : ℚ :=
  let R := (resume_skills.map lowerStr).toFinset
  let J := (job_skills.map lowerStr).toFinset
  if J = ∅ then 1/2
  else min 1 (((R ∩ J).card : ℚ) / (J.card : ℚ))

/-- Specification-side view of one adapter outcome: the output of a
successful adapter, nothing from a failed one. -/
def successJobs : FetchOutcome → List JobPosting
  | .ok js => js
  | .failed _ => []

/-- Concrete posting with link `L1` (dedup fixtures). -/
def cexJobA : JobPosting :=
  { id := "a", empresa := "E", titulo := "T", descricao := "", requisitos := "",
    skills_detectadas := [], senioridade := none, localizacao := "", link := "L1",
    data_coleta := "2026-02-22" }

/-- Same link `L1` as `cexJobA` but a different id: a within-batch duplicate. -/
def cexJobB : JobPosting :=
  { cexJobA with id := "b" }

/-- Concrete posting with a distinct link `L2`. -/
def cexJobC : JobPosting :=
  { cexJobA with id := "c", link := "L2" }

/-- Monotonicity fixture: a profile with no skills. -/
def wProfileNoSkills : ResumeProfile :=
  { area := "Backend", senioridade := "Pleno", skills := [], soft_skills := [],
    anos_experiencia := 4, keywords := ["python"], empresas_anteriores := [] }

/-- Monotonicity fixture: the same profile with one matching skill added. -/
def wProfileWithSkills : ResumeProfile :=
  { wProfileNoSkills with skills := ["Python"] }

/-- Monotonicity fixture: a posting detecting the skill `Python`. -/
def wJobPython : JobPosting :=
  { cexJobA with id := "w", link := "L3", skills_detectadas := ["Python"] }

/-- Parsing a dumped JSON string array recovers the original string list. -/
theorem parse_str_items_map (l : List String) :
    parse_str_items (l.map JValue.jstr) = some l := by
  induction l with
  | nil => rfl
  | cons a rest ih => simp [parse_str_items, jvalAsStr, ih]

/-- Parsing the dict written for one posting recovers the posting. -/
theorem parse_job_fields_eq (j : JobPosting) : parse_job (job_fields j) = some j := by
  rcases j with ⟨i, e, t, d, r, sk, sen, loc, lk, dc, ats, ue, smin, smax⟩
  rcases sen with _ | s <;> rcases ats with _ | a <;>
    rcases smin with _ | m <;> rcases smax with _ | M <;>
      simp [parse_job, job_fields, getStr, getOptStr, getStrDefault, getOptNum,
        getStrList, jget, parse_str_items_map, optStr, optNum]

/-- When the incoming links are pairwise distinct, the merge loop appends
exactly the incoming jobs whose link is outside the accumulated set. -/
theorem merge_loop_eq_filter :
    ∀ (incoming : List JobPosting) (links : Finset String) (merged : List JobPosting),
      (incoming.map JobPosting.link).Nodup →
      merge_loop incoming links merged =
        merged ++ incoming.filter (fun j => j.link ∉ links) := by
  intro incoming
  induction incoming with
  | nil => intro links merged _; simp [merge_loop]
  | cons job rest ih =>
    intro links merged hnd
    simp only [List.map_cons, List.nodup_cons] at hnd
    obtain ⟨hjob, hrest⟩ := hnd
    by_cases hmem : job.link ∈ links
    · simp only [merge_loop, if_pos hmem]
      rw [ih links merged hrest]
      simp [List.filter_cons, hmem]
    · simp only [merge_loop, if_neg hmem]
      rw [ih (insert job.link links) (merged ++ [job]) hrest]
      have hfil : rest.filter (fun j => j.link ∉ insert job.link links) =
          rest.filter (fun j => j.link ∉ links) := by
        apply List.filter_congr
        intro x hx
        have hne : x.link ≠ job.link := by
          intro h
          exact hjob (h ▸ List.mem_map_of_mem JobPosting.link hx)
        simp [Finset.mem_insert, hne, hmem]
      rw [hfil]
      simp [List.filter_cons, hmem]

/-- The merge loop keeps the accumulated links pairwise distinct, provided
they start distinct and covered by the link set. -/
theorem merge_loop_nodup :
    ∀ (incoming : List JobPosting) (links : Finset String) (merged : List JobPosting),
      (merged.map JobPosting.link).Nodup →
      (∀ s, s ∈ merged.map JobPosting.link → s ∈ links) →
      ((merge_loop incoming links merged).map JobPosting.link).Nodup := by
  intro incoming
  induction incoming with
  | nil => intro links merged h _; simpa [merge_loop] using h
  | cons job rest ih =>
    intro links merged hnd hsub
    by_cases hmem : job.link ∈ links
    · simp only [merge_loop, if_pos hmem]
      exact ih links merged hnd hsub
    · simp only [merge_loop, if_neg hmem]
      apply ih (insert job.link links) (merged ++ [job])
      · simp only [List.map_append, List.map_cons, List.map_nil]
        rw [List.nodup_append]
        refine ⟨hnd, List.nodup_singleton _, ?_⟩
        intro x hx
        simp only [List.mem_singleton]
        intro hxx
        exact hmem (hxx ▸ hsub x hx)
      · intro s hs
        simp only [List.map_append, List.map_cons, List.map_nil, List.mem_append,
          List.mem_singleton] at hs
        rcases hs with hs | hs
        · exact Finset.mem_insert_of_mem (hsub s hs)
        · subst hs; exact Finset.mem_insert_self _ _

/-- The skill-overlap component always lies in `[0, 1]`. -/
theorem skill_overlap_bounds (rs js : List String) :
    0 ≤ calculate_skill_overlap rs js ∧ calculate_skill_overlap rs js ≤ 1 := by
  unfold calculate_skill_overlap
  split_ifs with h
  · norm_num
  · constructor
    · apply le_min (by norm_num)
      positivity
    · exact min_le_left _ _

/-- The seniority component always lies in `[0, 1]`. -/
theorem senioridade_score_bounds (p : String) (j : Option String) :
    0 ≤ senioridade_score p j ∧ senioridade_score p j ≤ 1 := by
  unfold senioridade_score
  rcases j with _ | s
  · norm_num
  · simp only
    split_ifs <;> norm_num

/-- The semantic component always lies in `[0, 1]`. -/
theorem semantic_bounds (kw : List String) (d : String) :
    0 ≤ calculate_semantic_similarity kw d ∧ calculate_semantic_similarity kw d ≤ 1 := by
  unfold calculate_semantic_similarity
  split_ifs with h
  · norm_num
  · constructor
    · apply le_min (by norm_num)
      positivity
    · exact min_le_left _ _

/-- The score field of `score_job` is the weighted sum of the three
components. -/
theorem score_job_score_eq (p : ResumeProfile) (j : JobPosting) :
    (score_job p j).score =
      SKILLS_WEIGHT * calculate_skill_overlap p.skills j.skills_detectadas +
        SENIORIDADE_WEIGHT * senioridade_score p.senioridade j.senioridade +
        SEMANTIC_WEIGHT * calculate_semantic_similarity p.keywords j.descricao := rfl

/-- Python slicing `s[:n]` yields at most `n` characters. -/
theorem strTake_length_le (s : String) (n : ℕ) : (strTake s n).length ≤ n := by
  show (s.data.take n).length ≤ n
  rw [List.length_take]
  exact min_le_left _ _

/-- Claim C1, counterexample: with an empty store and an incoming batch
containing two distinct postings that share link `L1`, `merge_jobs` admits
only the first, whereas the claim's formula — existing followed by every
incoming element whose link is not among the existing links — would keep
both. -/
theorem merge_jobs_batch_dup_counterexample :
    merge_jobs [] [cexJobA, cexJobB] = [cexJobA] ∧
    merge_jobs [] [cexJobA, cexJobB] ≠
      [] ++ [cexJobA, cexJobB].filter
        (fun j => j.link ∉ ([] : List JobPosting).map JobPosting.link) := by
  decide

/-- Claim C1, amended: whenever the incoming links are pairwise distinct,
`merge_jobs` returns all of `existing` first, in original order, followed by
exactly those incoming elements whose link is not already present among
`existing`'s links, in their original order (an incoming duplicate of an
existing link is discarded and the pre-existing element retained); when the
incoming batch repeats a link, only the first occurrence is admitted. -/
theorem merge_jobs_existing_then_filtered (existing incoming : List JobPosting)
    (h : (incoming.map JobPosting.link).Nodup) :
    merge_jobs existing incoming =
      existing ++ incoming.filter
        (fun j => j.link ∉ existing.map JobPosting.link) := by
  unfold merge_jobs
  rw [merge_loop_eq_filter incoming _ existing h]
  congr 1
  apply List.filter_congr
  intro x _
  simp [List.mem_toFinset]

/-- Claim C1, witness: existing store holding link `L2`, incoming batch with
the fresh link `L1`. -/
theorem merge_jobs_existing_then_filtered_witness :
    (([cexJobA].map JobPosting.link).Nodup) ∧
    merge_jobs [cexJobC] [cexJobA] =
      [cexJobC] ++ [cexJobA].filter
        (fun j => j.link ∉ [cexJobC].map JobPosting.link) :=
  ⟨by decide, merge_jobs_existing_then_filtered [cexJobC] [cexJobA] (by decide)⟩

/-- Claim C2: for every profile and posting the final score lies in
`[0, 1]`, and the three weights sum to `1`. -/
theorem score_job_bounds (p : ResumeProfile) (j : JobPosting) :
    (0 ≤ (score_job p j).score ∧ (score_job p j).score ≤ 1) ∧
    SKILLS_WEIGHT + SENIORIDADE_WEIGHT + SEMANTIC_WEIGHT = 1 := by
  constructor
  · rw [score_job_score_eq]
    obtain ⟨h1, h2⟩ := skill_overlap_bounds p.skills j.skills_detectadas
    obtain ⟨h3, h4⟩ := senioridade_score_bounds p.senioridade j.senioridade
    obtain ⟨h5, h6⟩ := semantic_bounds p.keywords j.descricao
    unfold SKILLS_WEIGHT SENIORIDADE_WEIGHT SEMANTIC_WEIGHT
    constructor <;> nlinarith
  · unfold SKILLS_WEIGHT SENIORIDADE_WEIGHT SEMANTIC_WEIGHT
    norm_num

/-- Claim C3: an unspecified posting seniority scores the neutral `0.5`
regardless of the profile's seniority; for recognized levels the component
is the fixed lookup on the absolute level distance, and an exact match
scores `1.0`. -/
theorem senioridade_score_spec :
    (∀ p : String, senioridade_score p none = 1/2) ∧
    (∀ p j : String, p ∈ ["Junior", "Pleno", "Senior", "Lead"] →
      j ∈ ["Junior", "Pleno", "Senior", "Lead"] →
      senioridade_score p (some j) =
        spec_seniority_lookup
          (((spec_seniority_level p : ℤ) - (spec_seniority_level j : ℤ)).natAbs)) ∧
    (∀ j : String, j ∈ ["Junior", "Pleno", "Senior", "Lead"] →
      senioridade_score j (some j) = 1) := by
  refine ⟨fun p => rfl, fun p j hp hj => ?_, fun j hj => ?_⟩
  · fin_cases hp <;> fin_cases hj <;>
      norm_num +decide [senioridade_score, seniority_levels, spec_seniority_level,
        spec_seniority_lookup]
  · fin_cases hj <;>
      norm_num +decide [senioridade_score, seniority_levels]

/-- Claim C3, witness: neutral case at `Pleno`, distance lookup at
`Junior` versus `Lead`, exact match at `Lead`. -/
theorem senioridade_score_spec_witness :
    senioridade_score "Pleno" none = 1/2 ∧
    ("Junior" ∈ (["Junior", "Pleno", "Senior", "Lead"] : List String) ∧
      "Lead" ∈ (["Junior", "Pleno", "Senior", "Lead"] : List String)) ∧
    senioridade_score "Junior" (some "Lead") =
      spec_seniority_lookup
        (((spec_seniority_level "Junior" : ℤ) - (spec_seniority_level "Lead" : ℤ)).natAbs) ∧
    senioridade_score "Lead" (some "Lead") = 1 :=
  ⟨senioridade_score_spec.1 "Pleno", ⟨by decide, by decide⟩,
   senioridade_score_spec.2.1 "Junior" "Lead" (by decide) (by decide),
   senioridade_score_spec.2.2 "Lead" (by decide)⟩

/-- Claim C4: the skill-overlap component equals the spec's formula (neutral
`0.5` on an empty detected-skill set, else the covered fraction of the job's
case-folded skill set clamped to `1.0`), and on the spec's scenario —
profile skills Python, Django, AWS, PostgreSQL against posting skills
Python, Django, AWS, Docker — it equals `3/4`. -/
theorem calculate_skill_overlap_spec :
    (∀ rs js, calculate_skill_overlap rs js = spec_skill_component rs js) ∧
    calculate_skill_overlap ["Python", "Django", "AWS", "PostgreSQL"]
      ["Python", "Django", "AWS", "Docker"] = 3/4 := by
  constructor
  · intro rs js
    simp only [calculate_skill_overlap, spec_skill_component]
    rcases eq_or_ne js [] with rfl | hne
    · simp
    · have hJ : ¬((js.map lowerStr).toFinset = ∅) := by
        simp [List.toFinset_eq_empty_iff, hne]
      rw [if_neg hne, if_neg hJ]
  · have h1 : (((["Python", "Django", "AWS", "PostgreSQL"].map lowerStr).toFinset ∩
        (["Python", "Django", "AWS", "Docker"].map lowerStr).toFinset).card) = 3 := by
      decide
    have h2 : ((["Python", "Django", "AWS", "Docker"].map lowerStr).toFinset).card = 4 := by
      decide
    simp only [calculate_skill_overlap, h1, h2]
    norm_num
    decide

/-- Claim C5: enlarging the intersection of the case-folded profile-skill
set with the posting's case-folded detected-skill set — posting, seniority
and keywords held fixed — never decreases the final score. -/
theorem score_job_monotone_in_overlap (p1 p2 : ResumeProfile) (job : JobPosting)
    (hsen : p1.senioridade = p2.senioridade) (hkw : p1.keywords = p2.keywords)
    (hsub : (p1.skills.map lowerStr).toFinset ∩
        (job.skills_detectadas.map lowerStr).toFinset ⊆
      (p2.skills.map lowerStr).toFinset ∩
        (job.skills_detectadas.map lowerStr).toFinset) :
    (score_job p1 job).score ≤ (score_job p2 job).score := by
  rw [score_job_score_eq, score_job_score_eq, hsen, hkw]
  have hov : calculate_skill_overlap p1.skills job.skills_detectadas ≤
      calculate_skill_overlap p2.skills job.skills_detectadas := by
    unfold calculate_skill_overlap
    split_ifs with h
    · exact le_refl _
    · apply min_le_min (le_refl 1)
      have hcard : ((p1.skills.map lowerStr).toFinset ∩
          (job.skills_detectadas.map lowerStr).toFinset).card ≤
        ((p2.skills.map lowerStr).toFinset ∩
          (job.skills_detectadas.map lowerStr).toFinset).card :=
        Finset.card_le_card hsub
      gcongr
  unfold SKILLS_WEIGHT SENIORIDADE_WEIGHT SEMANTIC_WEIGHT
  linarith

/-- Claim C5, witness: adding the matching skill `Python` to an otherwise
identical profile does not decrease the score against a posting detecting
`Python`. -/
theorem score_job_monotone_in_overlap_witness :
    (wProfileNoSkills.senioridade = wProfileWithSkills.senioridade ∧
      wProfileNoSkills.keywords = wProfileWithSkills.keywords ∧
      (wProfileNoSkills.skills.map lowerStr).toFinset ∩
          (wJobPython.skills_detectadas.map lowerStr).toFinset ⊆
        (wProfileWithSkills.skills.map lowerStr).toFinset ∩
          (wJobPython.skills_detectadas.map lowerStr).toFinset) ∧
    (score_job wProfileNoSkills wJobPython).score ≤
      (score_job wProfileWithSkills wJobPython).score :=
  ⟨⟨rfl, rfl, by decide⟩,
   score_job_monotone_in_overlap wProfileNoSkills wProfileWithSkills wJobPython
     rfl rfl (by decide)⟩

/-- Claim C6: loading the JSON produced by saving any posting list returns
the same list, structurally equal on all fields. -/
theorem load_save_roundtrip (X : List JobPosting) :
    load_jobs (save_jobs X) = some X := by
  have h : ∀ L : List JobPosting, parse_items (L.map job_to_dict) = some L := by
    intro L
    induction L with
    | nil => rfl
    | cons j rest ih => simp [parse_items, job_to_dict, parse_job_fields_eq, ih]
  simpa [load_jobs, save_jobs] using h X

/-- Claim C7: whatever each adapter call does — return a list or raise —
the aggregator totals exactly the concatenation of the successful adapters'
outputs in registration order, with no deduplication. -/
theorem search_all_sources_concat (o : SourceOutcomes) :
    (search_all_sources o).1 =
      successJobs o.remoteok ++ successJobs o.infojobs ++
        successJobs o.rss ++ successJobs o.getninja := by
  rcases o with ⟨r, i, s, g⟩
  rcases r <;> rcases i <;> rcases s <;> rcases g <;>
    simp [search_all_sources, extendIfOk, successJobs]

set_option maxRecDepth 10000 in
/-- Claim C8, counterexample: a scraped container whose description element
holds 501 characters yields a posting whose `descricao` has length 501,
exceeding the claimed 500-character preview bound. -/
theorem extract_descricao_cex :
    ((extract_job_postings (fun _ => "00000000-0000-0000-0000-000000000000")
        "2026-02-22"
        [{ title := some "Backend Developer",
           desc := some (String.mk (List.replicate 501 'a')) }]
        "Acme" "https://acme.example" "https://acme.example/jobs").map
      (fun j => j.descricao.length)) = [501] ∧ 500 < 501 := by
  decide

/-- Claim C8, amended: the RemoteOK adapter bounds every produced posting's
`descricao` to at most 500 characters; the generic HTML scraper's
`extract_job_postings` copies the description element's text unbounded. -/
theorem parse_remoteok_descricao_bounded (newId today : String)
    (data : RemoteOkItem) :
    (parse_remoteok_job newId today data).descricao.length ≤ 500 := by
  simp only [parse_remoteok_job]
  split_ifs with h
  · exact strTake_length_le _ _
  · show ("" : String).length ≤ 500
    norm_num [String.length]

/-- Claim C9: the profile-construction boundary passes an unrecognized
seniority value such as "Staff" through unchanged — only an absent key
defaults to "Pleno" — so the constructed profile violates the four-level
invariant the spec states. -/
theorem build_profile_unrecognized_passthrough :
    (build_profile_from_payload { senioridade := some "Staff" }).senioridade
        = "Staff" ∧
    "Staff" ∉ (["Junior", "Pleno", "Senior", "Lead"] : List String) ∧
    (build_profile_from_payload {}).senioridade = "Pleno" :=
  ⟨rfl, by decide, rfl⟩

/-- Claim C10: when the existing store's links are pairwise distinct, the
merged list's links are pairwise distinct as well; within an incoming batch
sharing a fresh link, only the first occurrence is admitted (shown on the
`L1`-duplicate fixture). -/
theorem merge_jobs_link_nodup (existing incoming : List JobPosting)
    (h : (existing.map JobPosting.link).Nodup) :
    ((merge_jobs existing incoming).map JobPosting.link).Nodup ∧
    merge_jobs [] [cexJobA, cexJobB] = [cexJobA] := by
  constructor
  · unfold merge_jobs
    apply merge_loop_nodup incoming _ existing h
    intro s hs
    exact List.mem_toFinset.2 hs
  · decide

/-- Claim C10, witness: an existing store with the single link `L2` merged
with the duplicate-link batch keeps all links pairwise distinct. -/
theorem merge_jobs_link_nodup_witness :
    (([cexJobC].map JobPosting.link).Nodup) ∧
    (((merge_jobs [cexJobC] [cexJobA, cexJobB]).map JobPosting.link).Nodup ∧
      merge_jobs [] [cexJobA, cexJobB] = [cexJobA]) :=
  ⟨by decide, merge_jobs_link_nodup [cexJobC] [cexJobA, cexJobB] (by decide)⟩
